import Mathlib

/-!
Verification of the SAMurAI software-asset-management application (`app.py`).

The Python source is shallowly embedded: database rows become Lean
structures, SQLAlchemy queries over the in-memory snapshot become list
operations, Python `sorted` (a stable merge sort) becomes `List.mergeSort`,
Python float arithmetic is modelled exactly over `ℚ`, and dates are
modelled by their day ordinal in `ℤ` (so `today + 30` is `timedelta(days=30)`
later).  Request handlers become pure functions from the requesting user,
the table snapshots and the request data to an HTTP status, a message and
the post-request table state; an error response leaves the tables
unchanged (the session is rolled back / never committed on such paths).
-/

namespace SAMurAI

/-- Row of the `software` table (`class Software`), together with the
column types of `app.py`: `total_licenses : int`, `cost_per_license : float`
(modelled in `ℚ`), `renewal_date : date` (modelled as a day ordinal in `ℤ`). -/
structure Software where
  id : Nat
  name : String
  vendor : String
  description : String
  license_type : String
  total_licenses : Nat
  cost_per_license : ℚ
  renewal_date : ℤ
deriving DecidableEq

/-- Row of the `licenses` table (`class License`). -/
structure License where
  id : Nat
  software_id : Nat
  assigned_to : Option Nat
  status : String
deriving DecidableEq

/-- Row of the `users` table (`class User`). -/
structure UserRec where
  id : Nat
  username : String
  email : String
  password_hash : String
  role : String
deriving DecidableEq

/-- `Software.used_licenses`:
`License.query.filter_by(software_id=self.id, status='active').count()`. -/
def used_licenses (licenses : List License) (s : Software) : Nat :=
  (licenses.filter (fun l => l.software_id == s.id && l.status == "active")).length

/-- `Software.usage_percentage`: `0` when `total_licenses == 0`, else
`(used_licenses / total_licenses) * 100`. -/
def usage_percentage (licenses : List License) (s : Software) : ℚ :=
  if s.total_licenses = 0 then 0
  else ((used_licenses licenses s : ℚ) / (s.total_licenses : ℚ)) * 100

/-- `Software.total_cost`: `total_licenses * cost_per_license`. -/
def total_cost (s : Software) : ℚ :=
  (s.total_licenses : ℚ) * s.cost_per_license

/-- `Software.days_until_renewal`: `(renewal_date - today).days`. -/
def days_until_renewal (today : ℤ) (s : Software) : ℤ :=
  s.renewal_date - today

/-- Local `total_licenses = sum(s.total_licenses for s in software_list)`
of `get_dashboard_stats`. -/
def sum_total_licenses (software_list : List Software) : Nat :=
  (software_list.map (fun s => s.total_licenses)).sum

/-- Local `active_licenses = sum(s.used_licenses for s in software_list)`
of `get_dashboard_stats`. -/
def sum_active_licenses (licenses : List License) (software_list : List Software) : Nat :=
  (software_list.map (fun s => used_licenses licenses s)).sum

/-- The fixed-shape record returned by `get_dashboard_stats` (the two
Python counter dictionaries `license_types` and `vendor_distribution`
are modelled as their label-to-count functions; the two three-field
sub-dictionaries are flattened). -/
structure DashboardStats where
  total_software : Nat
  total_licenses : Nat
  active_licenses : Nat
  total_cost : ℚ
  utilization : ℚ
  expiring_soon : Nat
  expired : Nat
  avg_cost_per_license : ℚ
  potential_savings : ℚ
  license_types : String → Nat
  vendor_distribution : String → Nat
  usage_high : Nat
  usage_medium : Nat
  usage_low : Nat
  cost_high : Nat
  cost_medium : Nat
  cost_low : Nat

/-- `get_dashboard_stats()` on the snapshot `software_list` of
`Software.query.all()` with license table `licenses` and current date
`today` (`thirty_days = today + 30`).  The `except` branch that returns
the all-zero record on a storage failure has no counterpart here: the
embedding is total and performs no I/O. -/
def get_dashboard_stats (licenses : List License) (today : ℤ)
    (software_list : List Software) : DashboardStats :=
  let total_licenses := sum_total_licenses software_list
  let active_licenses := sum_active_licenses licenses software_list
  let total_cost : ℚ :=
    (software_list.map (fun s => (s.total_licenses : ℚ) * s.cost_per_license)).sum
  { total_software := software_list.length
    total_licenses := total_licenses
    active_licenses := active_licenses
    total_cost := total_cost
    utilization :=
      if 0 < total_licenses then (active_licenses : ℚ) / (total_licenses : ℚ) * 100 else 0
    expiring_soon :=
      software_list.countP
        (fun s => decide (s.renewal_date ≤ today + 30 ∧ today < s.renewal_date))
    expired := software_list.countP (fun s => decide (s.renewal_date ≤ today))
    avg_cost_per_license :=
      if 0 < total_licenses then total_cost / (total_licenses : ℚ) else 0
    potential_savings :=
      ((software_list.filter (fun s => decide (usage_percentage licenses s < 30))).map
        (fun s => ((s.total_licenses : ℚ) - (used_licenses licenses s : ℚ)) *
          s.cost_per_license)).sum
    license_types := fun t =>
      software_list.countP (fun s => s.license_type == t)
    vendor_distribution := fun v =>
      software_list.countP (fun s => s.vendor == v)
    usage_high :=
      software_list.countP (fun s => decide (80 ≤ usage_percentage licenses s))
    usage_medium :=
      software_list.countP
        (fun s => decide (30 ≤ usage_percentage licenses s ∧ usage_percentage licenses s < 80))
    usage_low := software_list.countP (fun s => decide (usage_percentage licenses s < 30))
    cost_high :=
      software_list.countP
        (fun s => decide ((100000 : ℚ) ≤ s.cost_per_license * (s.total_licenses : ℚ)))
    cost_medium :=
      software_list.countP
        (fun s => decide ((10000 : ℚ) ≤ s.cost_per_license * (s.total_licenses : ℚ) ∧
          s.cost_per_license * (s.total_licenses : ℚ) < 100000))
    cost_low :=
      software_list.countP
        (fun s => decide (s.cost_per_license * (s.total_licenses : ℚ) < 10000)) }

/-- Python `sorted(l, key=key)`: a stable merge sort, ascending on the key. -/
def py_sorted {α κ : Type} [LinearOrder κ] (key : α → κ) (l : List α) : List α :=
  l.mergeSort (fun a b => decide (key a ≤ key b))

/-- Python `sorted(l, key=key, reverse=True)`: a stable merge sort,
descending on the key (elements with equal keys keep their original
relative order, exactly as CPython's `reverse=True` does). -/
def py_sorted_rev {α κ : Type} [LinearOrder κ] (key : α → κ) (l : List α) : List α :=
  l.mergeSort (fun a b => decide (key b ≤ key a))

/-- `get_top_software()`:
`sorted(software_list, key=lambda x: x.usage_percentage, reverse=True)[:3]`. -/
def get_top_software (licenses : List License) (software_list : List Software) : List Software :=
  (py_sorted_rev (usage_percentage licenses) software_list).take 3

/-- The `dashboard` route's "top movers":
`sorted(software_list, key=lambda x: x.used_licenses, reverse=True)[:5]`. -/
def dashboard_top_software (licenses : List License)
    (software_list : List Software) : List Software :=
  (py_sorted_rev (fun s => used_licenses licenses s) software_list).take 5

/-- The four values of the `filter` query parameter of `/software-inventory`
(any unknown value falls into the `else` branch, i.e. behaves as `all`). -/
inductive FilterType where
  | active
  | expiring
  | expired
  | all
deriving DecidableEq

/-- `software_inventory`, `active` branch: software with usage above 70%,
sorted descending by usage percentage. -/
def active_filtered (licenses : List License) (all_software : List Software) : List Software :=
  py_sorted_rev (usage_percentage licenses)
    (all_software.filter (fun s => decide (70 < usage_percentage licenses s)))

/-- `software_inventory`, `expiring` branch: software with
`renewal_date <= thirty_days and renewal_date > today`, sorted ascending
by renewal date. -/
def expiring_filtered (today : ℤ) (all_software : List Software) : List Software :=
  py_sorted (fun s => s.renewal_date)
    (all_software.filter (fun s => decide (s.renewal_date ≤ today + 30 ∧ today < s.renewal_date)))

/-- `software_inventory`, `expired` branch: software with
`renewal_date <= today`, sorted descending by renewal date. -/
def expired_filtered (today : ℤ) (all_software : List Software) : List Software :=
  py_sorted_rev (fun s => s.renewal_date)
    (all_software.filter (fun s => decide (s.renewal_date ≤ today)))

/-- The local `filtered_software` list of the three single-category
branches of `software_inventory`.  The `all` branch returns before the
pagination code runs, so its value here is never used; `[]` only makes
the match total. -/
def filtered_software (licenses : List License) (today : ℤ) :
    FilterType → List Software → List Software
  | .active, l => active_filtered licenses l
  | .expiring, l => expiring_filtered today l
  | .expired, l => expired_filtered today l
  | .all, _ => []

/-- The two shapes `software_inventory` renders: the paginated single-category
view (`software_list=paginated_software, page=..., total=...`) and the
three-list `all` view (`active_software, expiring_software, expired_software`). -/
inductive InvResult where
  | paged (software_list : List Software) (page : ℤ) (total : Nat)
  | allView (active_software expiring_software expired_software : List Software)
deriving DecidableEq

/-- Python list slicing `l[start:stop]` (step 1) for arbitrary integer
bounds: negative bounds count from the end, and both bounds are clamped
into `[0, len(l)]`. -/
def pySlice {α : Type} (l : List α) (start stop : ℤ) : List α :=
  let n : ℤ := l.length
  let s := if start < 0 then max (start + n) 0 else min start n
  let e := if stop < 0 then max (stop + n) 0 else min stop n
  (l.take e.toNat).drop s.toNat

/-- The manual pagination of `software_inventory` (`per_page = 12`):
`start = (page - 1) * per_page`, `end = start + per_page`,
`paginated_software = filtered_software[start:end] if start < total else []`. -/
def paginate (filtered : List Software) (page : ℤ) : InvResult :=
  let total := filtered.length
  let start := (page - 1) * 12
  InvResult.paged (if start < (total : ℤ) then pySlice filtered start (start + 12) else [])
    page total

/-- The `software_inventory` route on the snapshot `all_software` of
`Software.query.all()`: the early `if not all_software` return renders the
empty paginated view; the three single-category filters paginate; the
`all` branch renders three independently truncated top-8 lists. -/
def software_inventory (licenses : List License) (today : ℤ) (filter_type : FilterType)
    (page : ℤ) (all_software : List Software) : InvResult :=
  if all_software.isEmpty then .paged [] 1 0
  else
    match filter_type with
    | .active => paginate (active_filtered licenses all_software) page
    | .expiring => paginate (expiring_filtered today all_software) page
    | .expired => paginate (expired_filtered today all_software) page
    | .all =>
      .allView ((active_filtered licenses all_software).take 8)
        ((expiring_filtered today all_software).take 8)
        ((expired_filtered today all_software).take 8)

/-- The software items a rendered `InvResult` contains. -/
def returned_list : InvResult → List Software
  | .paged xs _ _ => xs
  | .allView a e x => a ++ e ++ x

/-- Python `str.strip()` discards these characters at either end
(space and the ASCII whitespace range 9-13). -/
def is_py_space (c : Char) : Bool :=
  c = ' ' || (9 ≤ c.toNat && c.toNat ≤ 13)

/-- Python `str.strip()`. -/
def py_strip (s : String) : String :=
  String.mk (((s.data.dropWhile is_py_space).reverse.dropWhile is_py_space).reverse)

/-- Python `str.lower()` on one ASCII character. -/
def py_lower_char (c : Char) : Char :=
  if 65 ≤ c.toNat ∧ c.toNat ≤ 90 then Char.ofNat (c.toNat + 32) else c

/-- Python `str.lower()` (the stored emails are ASCII). -/
def py_lower (s : String) : String :=
  String.mk (s.data.map py_lower_char)

/-- A JSON API response: HTTP status, the `message`/`error` string, and the
table state after the request (unchanged on every error path: those paths
return before `db.session.commit()`, or roll back). -/
structure ApiResponse (σ : Type) where
  status : Nat
  message : String
  state : σ
deriving DecidableEq

/-- `User.query.filter_by(role='admin').count()`. -/
def admin_count (users : List UserRec) : Nat :=
  (users.filter (fun u => u.role == "admin")).length

/-- The JSON body of `PUT /api/users/<id>`: each field is present or absent. -/
structure UserUpdate where
  username : Option String
  email : Option String
  password : Option String
  role : Option String

/-- The `if 'username' in data` block of `update_user`: duplicate check
against the `users` table, then the assignment `user.username = ...`. -/
def check_username (users : List UserRec) (user_id : Nat) (data : UserUpdate)
    (user : UserRec) : Except String UserRec :=
  match data.username with
  | none => .ok user
  | some un =>
    match users.find? (fun u => u.username == un) with
    | some existing =>
      if existing.id ≠ user_id then .error "Username already exists"
      else .ok { user with username := un }
    | none => .ok { user with username := un }

/-- The `if 'email' in data` block of `update_user`. -/
def check_email (users : List UserRec) (user_id : Nat) (data : UserUpdate)
    (user : UserRec) : Except String UserRec :=
  match data.email with
  | none => .ok user
  | some em =>
    match users.find? (fun u => u.email == em) with
    | some existing =>
      if existing.id ≠ user_id then .error "Email already exists"
      else .ok { user with email := em }
    | none => .ok { user with email := em }

/-- The `if 'password' in data` block of `update_user`
(`user.set_password(...)`; the salted hash function is a parameter). -/
def apply_password (hash : String → String) (data : UserUpdate) (user : UserRec) : UserRec :=
  match data.password with
  | none => user
  | some pw => { user with password_hash := hash pw }

/-- The `if 'role' in data` block of `update_user`: own-role guard, then
the last-admin guard (`user.role` is the target's role as loaded, never
reassigned before this point), then the assignment. -/
def check_role (current_user : UserRec) (users : List UserRec) (user_id : Nat)
    (data : UserUpdate) (user user3 : UserRec) : Except String UserRec :=
  match data.role with
  | none => .ok user3
  | some r =>
    if user_id = current_user.id then .error "Cannot change own role"
    else if user.role = "admin" ∧ r ≠ "admin" ∧ admin_count users ≤ 1 then
      .error "Cannot remove last admin"
    else .ok { user3 with role := r }

/-- `PUT /api/users/<id>` (`update_user`): admin check, `get_or_404`,
the four partial-update blocks in source order (any 400 leaves the table
unchanged — nothing was committed), then the commit writes the updated row. -/
def update_user (hash : String → String) (current_user : UserRec) (users : List UserRec)
    (user_id : Nat) (data : UserUpdate) : ApiResponse (List UserRec) :=
  if current_user.role ≠ "admin" then ⟨403, "Unauthorized", users⟩
  else
    match users.find? (fun u => u.id == user_id) with
    | none => ⟨404, "Not Found", users⟩
    | some user =>
      match check_username users user_id data user with
      | .error msg => ⟨400, msg, users⟩
      | .ok user1 =>
        match check_email users user_id data user1 with
        | .error msg => ⟨400, msg, users⟩
        | .ok user2 =>
          match check_role current_user users user_id data user
              (apply_password hash data user2) with
          | .error msg => ⟨400, msg, users⟩
          | .ok user4 =>
            ⟨200, "User updated successfully",
              users.map (fun x => if x.id = user_id then user4 else x)⟩

/-- `DELETE /api/users/<id>` (`delete_user`): admin check, own-account
check, `get_or_404`, last-admin guard, then the delete commits. -/
def delete_user (current_user : UserRec) (users : List UserRec) (user_id : Nat) :
    ApiResponse (List UserRec) :=
  if current_user.role ≠ "admin" then ⟨403, "Unauthorized", users⟩
  else if user_id = current_user.id then ⟨400, "Cannot delete own account", users⟩
  else
    match users.find? (fun u => u.id == user_id) with
    | none => ⟨404, "Not Found", users⟩
    | some user =>
      if user.role = "admin" ∧ admin_count users ≤ 1 then
        ⟨400, "Cannot delete last admin", users⟩
      else ⟨200, "User deleted successfully", users.filter (fun u => u.id != user_id)⟩

/-- The JSON body of `POST /api/users`. -/
structure NewUserData where
  username : Option String
  email : Option String
  password : Option String
  role : Option String

/-- The autoincrement primary key for a fresh row. -/
def next_id (users : List UserRec) : Nat :=
  (users.map (fun u => u.id)).foldr max 0 + 1

/-- `POST /api/users` (`add_user`): admin check, required-field check,
raw-string duplicate checks (`filter_by(username=...)`, `filter_by(email=...)`),
then `User.__init__` (which strips the username and case-folds the email)
and the commit.  A commit that violates the `UNIQUE` constraint on
`users.username` or `users.email` raises, is rolled back and reported as 500. -/
def add_user (hash : String → String) (current_user : UserRec) (users : List UserRec)
    (data : NewUserData) : ApiResponse (List UserRec) :=
  if current_user.role ≠ "admin" then ⟨403, "Unauthorized", users⟩
  else
    match data.username, data.email, data.password, data.role with
    | some un, some em, some pw, some role =>
      if (users.find? (fun u => u.username == un)).isSome then
        ⟨400, "Username already exists", users⟩
      else if (users.find? (fun u => u.email == em)).isSome then
        ⟨400, "Email already exists", users⟩
      else
        let user : UserRec := ⟨next_id users, py_strip un, py_lower (py_strip em), hash pw, role⟩
        if users.any (fun u => u.username == user.username || u.email == user.email) then
          ⟨500, "Internal server error", users⟩
        else ⟨201, "User created successfully", users ++ [user]⟩
    | _, _, _, _ => ⟨400, "Missing required fields", users⟩

/-- `DELETE /api/software/<id>` (`delete_software`): admin check,
`get_or_404`, the active-license referential guard with its counted
message, then the delete commits (license rows are untouched). -/
def delete_software (current_user : UserRec) (softwares : List Software)
    (licenses : List License) (software_id : Nat) : ApiResponse (List Software) :=
  if current_user.role ≠ "admin" then ⟨403, "Unauthorized", softwares⟩
  else
    match softwares.find? (fun s => s.id == software_id) with
    | none => ⟨404, "Not Found", softwares⟩
    | some _ =>
      let active_licenses :=
        (licenses.filter (fun l => l.software_id == software_id && l.status == "active")).length
      if 0 < active_licenses then
        ⟨400, "Cannot delete software with " ++ toString active_licenses ++ " active licenses",
          softwares⟩
      else ⟨200, "Software deleted successfully", softwares.filter (fun s => s.id != software_id)⟩

/-- The `all` inventory view as the specification words it: three
independently computed top-8 slices — usage above 70% sorted descending by
usage percentage, renewal within the next 30 days sorted ascending by
renewal date, and already-renewed-by sorted descending by renewal date —
each truncated to 8 after its own sort.  Stated separately from
`software_inventory` so the route can be compared against it. -/
def inventory_all_spec (licenses : List License) (today : ℤ) (l : List Software) :
    List Software × List Software × List Software :=
  ((py_sorted_rev (usage_percentage licenses)
      (l.filter (fun s => decide (70 < usage_percentage licenses s)))).take 8,
   (py_sorted (fun s => s.renewal_date)
      (l.filter (fun s => decide (s.renewal_date ≤ today + 30 ∧ today < s.renewal_date)))).take 8,
   (py_sorted_rev (fun s => s.renewal_date)
      (l.filter (fun s => decide (s.renewal_date ≤ today)))).take 8)

/-! ## Helper lemmas -/

theorem mem_pySlice {α : Type} {l : List α} {s e : ℤ} {x : α}
    (h : x ∈ pySlice l s e) : x ∈ l := by
  unfold pySlice at h
  exact List.mem_of_mem_take (List.mem_of_mem_drop h)

theorem mem_paginate {f : List Software} {page : ℤ} {x : Software}
    (h : x ∈ returned_list (paginate f page)) : x ∈ f := by
  simp only [paginate, returned_list] at h
  split at h
  · exact mem_pySlice h
  · simp at h

theorem mem_expiring_filtered {today : ℤ} {l : List Software} {s : Software}
    (h : s ∈ expiring_filtered today l) :
    s.renewal_date ≤ today + 30 ∧ today < s.renewal_date := by
  unfold expiring_filtered py_sorted at h
  have hm := (List.mergeSort_perm _ _).mem_iff.mp h
  have := (List.mem_filter.mp hm).2
  exact of_decide_eq_true this

theorem mem_expired_filtered {today : ℤ} {l : List Software} {s : Software}
    (h : s ∈ expired_filtered today l) : s.renewal_date ≤ today := by
  unfold expired_filtered py_sorted_rev at h
  have hm := (List.mergeSort_perm _ _).mem_iff.mp h
  have := (List.mem_filter.mp hm).2
  exact of_decide_eq_true this

theorem mem_inventory_expiring {licenses : List License} {today p : ℤ}
    {l : List Software} {s : Software}
    (h : s ∈ returned_list (software_inventory licenses today .expiring p l)) :
    s.renewal_date ≤ today + 30 ∧ today < s.renewal_date := by
  unfold software_inventory at h
  split at h
  · simp [returned_list] at h
  · exact mem_expiring_filtered (mem_paginate h)

theorem mem_inventory_expired {licenses : List License} {today q : ℤ}
    {l : List Software} {s : Software}
    (h : s ∈ returned_list (software_inventory licenses today .expired q l)) :
    s.renewal_date ≤ today := by
  unfold software_inventory at h
  split at h
  · simp [returned_list] at h
  · exact mem_expired_filtered (mem_paginate h)

theorem pySlice_of_nonneg {α : Type} (l : List α) {s e : ℤ} (hs : 0 ≤ s) (he : 0 ≤ e) :
    pySlice l s e = (l.take e.toNat).drop s.toNat := by
  simp only [pySlice]
  rw [if_neg (not_lt.mpr hs), if_neg (not_lt.mpr he)]
  have htake : List.take (min e (l.length : ℤ)).toNat l = List.take e.toNat l := by
    rcases le_total e (l.length : ℤ) with h1 | h1
    · rw [min_eq_left h1]
    · rw [min_eq_right h1, List.take_of_length_le (by omega),
        List.take_of_length_le (by omega)]
  rw [htake]
  rcases le_total s (l.length : ℤ) with h2 | h2
  · rw [min_eq_left h2]
  · rw [min_eq_right h2,
      List.drop_eq_nil_of_le (by simp only [List.length_take]; omega),
      List.drop_eq_nil_of_le (by simp only [List.length_take]; omega)]

theorem returned_paginate_eq {f : List Software} {page : ℤ} (hp : 1 ≤ page) :
    returned_list (paginate f page) = (f.drop (((page - 1) * 12).toNat)).take 12 := by
  have hs : 0 ≤ (page - 1) * 12 := mul_nonneg (by omega) (by norm_num)
  simp only [paginate, returned_list]
  split
  · next h =>
    rw [pySlice_of_nonneg f hs (by omega)]
    rw [List.drop_take]
    congr 1
    omega
  · next h =>
    rw [List.drop_eq_nil_of_le (by omega), List.take_nil]

theorem py_sorted_rev_spec {α κ : Type} [LinearOrder κ] (key : α → κ) (l : List α) :
    (py_sorted_rev key l).Perm l ∧
    (py_sorted_rev key l).Pairwise (fun a b => key b ≤ key a) ∧
    (∀ c : List α, c.Pairwise (fun a b => key b ≤ key a) → c.Sublist l →
      c.Sublist (py_sorted_rev key l)) := by
  have htrans : ∀ a b c : α, (decide (key b ≤ key a)) = true →
      (decide (key c ≤ key b)) = true → (decide (key c ≤ key a)) = true := by
    intro a b c h1 h2
    exact decide_eq_true (le_trans (of_decide_eq_true h2) (of_decide_eq_true h1))
  have htotal : ∀ a b : α, ((decide (key b ≤ key a)) || (decide (key a ≤ key b))) = true := by
    intro a b
    rcases le_total (key b) (key a) with h | h
    · simp [decide_eq_true h]
    · simp [decide_eq_true h]
  refine ⟨List.mergeSort_perm l _, ?_, ?_⟩
  · exact (List.sorted_mergeSort htrans htotal l).imp (fun h => of_decide_eq_true h)
  · intro c hc hsub
    exact List.sublist_mergeSort htrans htotal (hc.imp (fun h => decide_eq_true h)) hsub

theorem rankings_differ :
    get_top_software
        [⟨0, 1, none, "active"⟩, ⟨1, 1, none, "active"⟩, ⟨2, 2, none, "active"⟩]
        [⟨1, "A", "V", "", "t", 8, 0, 0⟩, ⟨2, "B", "V", "", "t", 1, 0, 0⟩] ≠
      (dashboard_top_software
        [⟨0, 1, none, "active"⟩, ⟨1, 1, none, "active"⟩, ⟨2, 2, none, "active"⟩]
        [⟨1, "A", "V", "", "t", 8, 0, 0⟩, ⟨2, "B", "V", "", "t", 1, 0, 0⟩]).take 3 := by
  norm_num [get_top_software, dashboard_top_software, py_sorted_rev, List.mergeSort,
    List.merge, usage_percentage, used_licenses]

theorem check_username_role {users : List UserRec} {user_id : Nat} {data : UserUpdate}
    {user u1 : UserRec} (h : check_username users user_id data user = .ok u1) :
    u1.role = user.role := by
  unfold check_username at h
  split at h
  · simp only [Except.ok.injEq] at h
    subst h; rfl
  · split at h
    · split at h
      · simp at h
      · simp only [Except.ok.injEq] at h
        subst h; rfl
    · simp only [Except.ok.injEq] at h
      subst h; rfl

theorem check_email_role {users : List UserRec} {user_id : Nat} {data : UserUpdate}
    {user u1 : UserRec} (h : check_email users user_id data user = .ok u1) :
    u1.role = user.role := by
  unfold check_email at h
  split at h
  · simp only [Except.ok.injEq] at h
    subst h; rfl
  · split at h
    · split at h
      · simp at h
      · simp only [Except.ok.injEq] at h
        subst h; rfl
    · simp only [Except.ok.injEq] at h
      subst h; rfl

theorem apply_password_role (hash : String → String) (data : UserUpdate) (user : UserRec) :
    (apply_password hash data user).role = user.role := by
  unfold apply_password
  split <;> rfl

theorem check_role_ok {current_user : UserRec} {users : List UserRec} {user_id : Nat}
    {data : UserUpdate} {user user3 u4 : UserRec}
    (h : check_role current_user users user_id data user user3 = .ok u4) :
    u4 = user3 ∨ (user_id ≠ current_user.id ∧ ∃ r, u4 = { user3 with role := r }) := by
  unfold check_role at h
  split at h
  · simp only [Except.ok.injEq] at h
    exact Or.inl h.symm
  · split at h
    · simp at h
    · split at h
      · simp at h
      · simp only [Except.ok.injEq] at h
        next hne _ =>
        exact Or.inr ⟨hne, _, h.symm⟩

theorem mem_admin_count_pos {users : List UserRec} {u : UserRec}
    (hmem : u ∈ users) (hrole : u.role = "admin") : 1 ≤ admin_count users := by
  unfold admin_count
  exact List.length_pos_of_mem (List.mem_filter.mpr ⟨hmem, by simp [hrole]⟩)

theorem update_user_admin_invariant (hash : String → String) (current_user : UserRec)
    (users : List UserRec) (user_id : Nat) (data : UserUpdate)
    (hmem : current_user ∈ users) (hids : (users.map (fun u => u.id)).Nodup)
    (h1 : 1 ≤ admin_count users) :
    1 ≤ admin_count (update_user hash current_user users user_id data).state := by
  unfold update_user
  split
  · exact h1
  next hadm =>
  split
  · exact h1
  next user hfind =>
  split
  · exact h1
  next u1 hok1 =>
  split
  · exact h1
  next u2 hok2 =>
  split
  · exact h1
  next u4 hok4 =>
  have hcu : current_user.role = "admin" := not_not.mp hadm
  have huser_mem : user ∈ users := List.mem_of_find?_eq_some hfind
  have huser_id : user.id = user_id := by
    have := List.find?_some hfind
    simpa using this
  have hrole_chain : (apply_password hash data u2).role = user.role := by
    rw [apply_password_role, check_email_role hok2, check_username_role hok1]
  rcases check_role_ok hok4 with rfl | ⟨hne, r, rfl⟩
  · -- no role field in the body: every row keeps its role
    have hcount : admin_count (users.map fun x => if x.id = user_id then
        apply_password hash data u2 else x) = admin_count users := by
      unfold admin_count
      rw [List.filter_map, List.length_map]
      congr 1
      apply List.filter_congr
      intro x hx
      by_cases hxid : x.id = user_id
      · have hxu : x = user :=
          List.inj_on_of_nodup_map hids hx huser_mem (by rw [hxid, huser_id])
        subst hxu
        simp [Function.comp, hxid, hrole_chain]
      · simp [Function.comp, hxid]
    show 1 ≤ admin_count (users.map fun x => if x.id = user_id then
      apply_password hash data u2 else x)
    rw [hcount]
    exact h1
  · -- role change: the requesting admin is a different row and is untouched
    have hid : ¬ current_user.id = user_id := fun h => hne (h ▸ rfl)
    have h2 := List.mem_map_of_mem (fun x => if x.id = user_id then
      { apply_password hash data u2 with role := r } else x) hmem
    simp only [if_neg hid] at h2
    exact mem_admin_count_pos h2 hcu

theorem delete_user_admin_invariant (current_user : UserRec) (users : List UserRec)
    (user_id : Nat) (hmem : current_user ∈ users) (h1 : 1 ≤ admin_count users) :
    1 ≤ admin_count (delete_user current_user users user_id).state := by
  unfold delete_user
  split
  · exact h1
  next hadm =>
  split
  · exact h1
  next hne =>
  split
  · exact h1
  next user hfind =>
  split
  · exact h1
  next hguard =>
    have hcu : current_user.role = "admin" := not_not.mp hadm
    have h2 : current_user ∈ users.filter (fun u => u.id != user_id) :=
      List.mem_filter.mpr ⟨hmem, by
        simp only [bne_iff_ne, ne_eq]
        exact fun h => hne h.symm⟩
    exact mem_admin_count_pos h2 hcu

theorem update_user_demote_last_admin (hash : String → String) (current_user : UserRec)
    (users : List UserRec) (user_id : Nat) (data : UserUpdate) (user : UserRec)
    (r : String) (hcu : current_user.role = "admin")
    (hfind : users.find? (fun u => u.id == user_id) = some user)
    (hur : user.role = "admin") (hdr : data.role = some r) (hr : r ≠ "admin")
    (hcount : admin_count users ≤ 1) :
    (update_user hash current_user users user_id data).status = 400 ∧
    (update_user hash current_user users user_id data).state = users := by
  unfold update_user
  rw [if_neg (by simp [hcu]), hfind]
  dsimp only
  split
  · exact ⟨rfl, rfl⟩
  next u1 hok1 =>
  split
  · exact ⟨rfl, rfl⟩
  next u2 hok2 =>
  have herr : ∃ msg, check_role current_user users user_id data user
      (apply_password hash data u2) = .error msg := by
    unfold check_role
    rw [hdr]
    dsimp only
    by_cases hid : user_id = current_user.id
    · exact ⟨_, if_pos hid⟩
    · exact ⟨_, by rw [if_neg hid, if_pos ⟨hur, hr, hcount⟩]⟩
  obtain ⟨msg, herr⟩ := herr
  rw [herr]
  exact ⟨rfl, rfl⟩

theorem delete_user_sole_admin (current_user : UserRec) (users : List UserRec)
    (user_id : Nat) (user : UserRec) (hcu : current_user.role = "admin")
    (hfind : users.find? (fun u => u.id == user_id) = some user)
    (hur : user.role = "admin") (hcount : admin_count users ≤ 1) :
    (delete_user current_user users user_id).status = 400 ∧
    (delete_user current_user users user_id).state = users := by
  unfold delete_user
  rw [if_neg (by simp [hcu])]
  by_cases hid : user_id = current_user.id
  · rw [if_pos hid]
    exact ⟨rfl, rfl⟩
  · rw [if_neg hid, hfind]
    dsimp only
    rw [if_pos ⟨hur, hcount⟩]
    exact ⟨rfl, rfl⟩

/-! ## Claim theorems -/

/-- C1: for every Software collection, the dashboard `utilization` is `0`
when the summed total seats are `0`, and otherwise equals
used seats / total seats * 100 exactly. -/
theorem C1_dashboard_utilization (licenses : List License) (today : ℤ)
    (software_list : List Software) :
    (sum_total_licenses software_list = 0 →
      (get_dashboard_stats licenses today software_list).utilization = 0) ∧
    (sum_total_licenses software_list ≠ 0 →
      (get_dashboard_stats licenses today software_list).utilization =
        (sum_active_licenses licenses software_list : ℚ) /
          (sum_total_licenses software_list : ℚ) * 100) := by
  constructor
  · intro h
    simp [get_dashboard_stats, h]
  · intro h
    simp [get_dashboard_stats, Nat.pos_of_ne_zero h]

/-- C1 witness: one software item with 4 seats and 1 active license gives
utilization 1/4*100. -/
theorem C1_witness :
    sum_total_licenses [⟨0, "A", "V", "", "t", 4, 10, 0⟩] ≠ 0 ∧
    (get_dashboard_stats [⟨0, 0, none, "active"⟩] 0
        [⟨0, "A", "V", "", "t", 4, 10, 0⟩]).utilization =
      (sum_active_licenses [⟨0, 0, none, "active"⟩] [⟨0, "A", "V", "", "t", 4, 10, 0⟩] : ℚ) /
        (sum_total_licenses [⟨0, "A", "V", "", "t", 4, 10, 0⟩] : ℚ) * 100 :=
  ⟨by decide, (C1_dashboard_utilization _ _ _).2 (by decide)⟩

/-- C2 counterexample: a non-admin requester deleting the sole admin is
rejected with 403 Unauthorized, not with the claimed 400. -/
theorem C2_counterexample :
    admin_count [⟨1, "a", "a@x", "h", "admin"⟩, ⟨2, "b", "b@x", "h", "user"⟩] = 1 ∧
    delete_user ⟨2, "b", "b@x", "h", "user"⟩
        [⟨1, "a", "a@x", "h", "admin"⟩, ⟨2, "b", "b@x", "h", "user"⟩] 1 =
      ⟨403, "Unauthorized",
        [⟨1, "a", "a@x", "h", "admin"⟩, ⟨2, "b", "b@x", "h", "user"⟩]⟩ := by
  constructor
  · decide
  · decide

/-- C2 (amended): both user-mutation endpoints preserve "at least one admin
exists" (given distinct primary keys and a stored requester); demoting the
last admin or deleting the sole admin is rejected with 400 and the table
unchanged when the requester is an admin, and any non-admin requester is
rejected with 403 and the table unchanged. -/
theorem C2_last_admin_protection (hash : String → String) (current_user : UserRec)
    (users : List UserRec) (user_id : Nat) (data : UserUpdate)
    (hmem : current_user ∈ users) (hids : (users.map (fun u => u.id)).Nodup)
    (h1 : 1 ≤ admin_count users) :
    1 ≤ admin_count (update_user hash current_user users user_id data).state ∧
    1 ≤ admin_count (delete_user current_user users user_id).state ∧
    (∀ user r, current_user.role = "admin" →
      users.find? (fun u => u.id == user_id) = some user → user.role = "admin" →
      data.role = some r → r ≠ "admin" → admin_count users ≤ 1 →
      (update_user hash current_user users user_id data).status = 400 ∧
      (update_user hash current_user users user_id data).state = users) ∧
    (∀ user, current_user.role = "admin" →
      users.find? (fun u => u.id == user_id) = some user → user.role = "admin" →
      admin_count users ≤ 1 →
      (delete_user current_user users user_id).status = 400 ∧
      (delete_user current_user users user_id).state = users) ∧
    (current_user.role ≠ "admin" →
      (update_user hash current_user users user_id data).status = 403 ∧
      (update_user hash current_user users user_id data).state = users ∧
      (delete_user current_user users user_id).status = 403 ∧
      (delete_user current_user users user_id).state = users) := by
  refine ⟨update_user_admin_invariant hash current_user users user_id data hmem hids h1,
    delete_user_admin_invariant current_user users user_id hmem h1,
    fun user r hcu hfind hur hdr hr hcount =>
      update_user_demote_last_admin hash current_user users user_id data user r
        hcu hfind hur hdr hr hcount,
    fun user hcu hfind hur hcount =>
      delete_user_sole_admin current_user users user_id user hcu hfind hur hcount,
    fun hnadm => ?_⟩
  have h403u : update_user hash current_user users user_id data =
      ⟨403, "Unauthorized", users⟩ := by
    unfold update_user
    rw [if_pos hnadm]
  have h403d : delete_user current_user users user_id = ⟨403, "Unauthorized", users⟩ := by
    unfold delete_user
    rw [if_pos hnadm]
  rw [h403u, h403d]
  exact ⟨rfl, rfl, rfl, rfl⟩

/-- C2 witness: the sole admin demoting themself gets 400 and the user
table is unchanged. -/
theorem C2_witness :
    (update_user id ⟨1, "a", "a@x", "h", "admin"⟩
        [⟨1, "a", "a@x", "h", "admin"⟩, ⟨2, "b", "b@x", "h", "user"⟩] 1
        ⟨none, none, none, some "user"⟩).status = 400 ∧
    (update_user id ⟨1, "a", "a@x", "h", "admin"⟩
        [⟨1, "a", "a@x", "h", "admin"⟩, ⟨2, "b", "b@x", "h", "user"⟩] 1
        ⟨none, none, none, some "user"⟩).state =
      [⟨1, "a", "a@x", "h", "admin"⟩, ⟨2, "b", "b@x", "h", "user"⟩] :=
  (C2_last_admin_protection id ⟨1, "a", "a@x", "h", "admin"⟩
      [⟨1, "a", "a@x", "h", "admin"⟩, ⟨2, "b", "b@x", "h", "user"⟩] 1
      ⟨none, none, none, some "user"⟩ (by decide) (by decide) (by decide)).2.2.1
    ⟨1, "a", "a@x", "h", "admin"⟩ "user" rfl (by decide) rfl rfl (by decide) (by decide)

/-- C3 counterexample: a software row with 0 total seats but 1 active
license has usage percentage 0 (< 30), so it enters the savings sum with
the negative term (0 - 1) * cost, making `potential_savings` negative. -/
theorem C3_counterexample :
    (get_dashboard_stats [⟨1, 1, none, "active"⟩] 0
      [⟨1, "B", "V", "", "t", 0, 1, 0⟩]).potential_savings < 0 := by
  norm_num [get_dashboard_stats, used_licenses, usage_percentage]

/-- C3 (amended): `potential_savings` is non-negative for every collection
whose rows satisfy the data-model invariants used seats ≤ total seats and
cost per seat ≥ 0. -/
theorem C3_savings_nonneg (licenses : List License) (today : ℤ)
    (software_list : List Software)
    (hinv : ∀ s ∈ software_list,
      used_licenses licenses s ≤ s.total_licenses ∧ 0 ≤ s.cost_per_license) :
    0 ≤ (get_dashboard_stats licenses today software_list).potential_savings := by
  simp only [get_dashboard_stats]
  apply List.sum_nonneg
  intro x hx
  simp only [List.mem_map] at hx
  obtain ⟨s, hs, rfl⟩ := hx
  obtain ⟨hle, hc⟩ := hinv s (List.mem_filter.mp hs).1
  apply mul_nonneg _ hc
  have h : (used_licenses licenses s : ℚ) ≤ (s.total_licenses : ℚ) := by exact_mod_cast hle
  linarith

/-- C3 witness: a well-formed single-row collection satisfies the
invariants and gets non-negative savings. -/
theorem C3_witness :
    (∀ s ∈ [Software.mk 0 "A" "V" "" "t" 4 10 0],
      used_licenses [⟨0, 0, none, "active"⟩] s ≤ s.total_licenses ∧ 0 ≤ s.cost_per_license) ∧
    0 ≤ (get_dashboard_stats [⟨0, 0, none, "active"⟩] 0
      [Software.mk 0 "A" "V" "" "t" 4 10 0]).potential_savings := by
  have h : ∀ s ∈ [Software.mk 0 "A" "V" "" "t" 4 10 0],
      used_licenses [⟨0, 0, none, "active"⟩] s ≤ s.total_licenses ∧ 0 ≤ s.cost_per_license := by
    intro s hs
    simp only [List.mem_singleton] at hs
    subst hs
    refine ⟨by decide, by norm_num⟩
  exact ⟨h, C3_savings_nonneg _ _ _ h⟩

/-- C4: every item returned by filter mode `expiring` satisfies
today < renewal_date ≤ today + 30, every item returned by `expired`
satisfies renewal_date ≤ today, and — for any pages — the two returned
sets are disjoint. -/
theorem C4_expiring_expired (licenses : List License) (today p q : ℤ)
    (l : List Software) :
    (∀ s ∈ returned_list (software_inventory licenses today .expiring p l),
      today < s.renewal_date ∧ s.renewal_date ≤ today + 30) ∧
    (∀ s ∈ returned_list (software_inventory licenses today .expired q l),
      s.renewal_date ≤ today) ∧
    (∀ s ∈ returned_list (software_inventory licenses today .expiring p l),
      s ∉ returned_list (software_inventory licenses today .expired q l)) := by
  refine ⟨fun s hs => ?_, fun s hs => mem_inventory_expired hs, fun s hs hs2 => ?_⟩
  · exact ⟨(mem_inventory_expiring hs).2, (mem_inventory_expiring hs).1⟩
  · have h1 := (mem_inventory_expiring hs).2
    have h2 := mem_inventory_expired hs2
    omega

/-- C4 witness: a concrete item returned by the `expiring` view indeed
renews strictly within the 30-day window. -/
theorem C4_witness :
    0 < (Software.mk 10 "E" "V" "" "t" 1 0 10).renewal_date ∧
    (Software.mk 10 "E" "V" "" "t" 1 0 10).renewal_date ≤ 0 + 30 :=
  (C4_expiring_expired [] 0 1 1
      [⟨10, "E", "V", "", "t", 1, 0, 10⟩, ⟨11, "X", "V", "", "t", 1, 0, -5⟩]).1
    (Software.mk 10 "E" "V" "" "t" 1 0 10)
    (by simp +decide [software_inventory, expiring_filtered, py_sorted, paginate,
      returned_list, pySlice, List.mergeSort_singleton])

/-- C5: the three usage buckets (≥ 80, [30, 80), < 30) partition the
collection: their counts always sum to `total_software`. -/
theorem C5_usage_partition (licenses : List License) (today : ℤ)
    (software_list : List Software) :
    (get_dashboard_stats licenses today software_list).usage_high +
      (get_dashboard_stats licenses today software_list).usage_medium +
      (get_dashboard_stats licenses today software_list).usage_low =
      (get_dashboard_stats licenses today software_list).total_software := by
  simp only [get_dashboard_stats]
  induction software_list with
  | nil => rfl
  | cons s l ih =>
    simp only [List.countP_cons, List.length_cons, decide_eq_true_eq]
    rcases lt_or_le (usage_percentage licenses s) 30 with h30 | h30
    · have h80 : ¬ (80 : ℚ) ≤ usage_percentage licenses s := by
        intro h; linarith
      simp only [if_pos h30, if_neg h80, decide_eq_true_eq]
      have : ¬ (30 ≤ usage_percentage licenses s ∧ usage_percentage licenses s < 80) := by
        intro h; linarith [h.1]
      simp only [if_neg this]
      omega
    · rcases lt_or_le (usage_percentage licenses s) 80 with h80 | h80
      · have hnot : ¬ (usage_percentage licenses s < 30) := not_lt.mpr h30
        have hnot80 : ¬ (80 : ℚ) ≤ usage_percentage licenses s := not_le.mpr h80
        simp only [if_neg hnot, if_neg hnot80, if_pos (And.intro h30 h80)]
        omega
      · have hnot : ¬ (usage_percentage licenses s < 30) := by intro h; linarith
        have hnotm : ¬ (30 ≤ usage_percentage licenses s ∧
            usage_percentage licenses s < 80) := by
          intro h; linarith [h.2]
        simp only [if_pos h80, if_neg hnot, if_neg hnotm]
        omega

/-- C6: `get_top_software` is the 3-prefix of the stable descending sort
of the collection by usage percentage, the dashboard top list is the
5-prefix of the stable descending sort by raw used-seat count (stability
stated as: any non-increasing sublist of the input is a sublist of the
sort), and there is an input on which the two rankings differ. -/
theorem C6_two_rankings (licenses : List License) (l : List Software) :
    (∃ r : List Software,
      r.Perm l ∧
      r.Pairwise (fun a b => usage_percentage licenses b ≤ usage_percentage licenses a) ∧
      (∀ c : List Software,
        c.Pairwise (fun a b => usage_percentage licenses b ≤ usage_percentage licenses a) →
        c.Sublist l → c.Sublist r) ∧
      get_top_software licenses l = r.take 3) ∧
    (∃ m : List Software,
      m.Perm l ∧
      m.Pairwise (fun a b => used_licenses licenses b ≤ used_licenses licenses a) ∧
      (∀ c : List Software,
        c.Pairwise (fun a b => used_licenses licenses b ≤ used_licenses licenses a) →
        c.Sublist l → c.Sublist m) ∧
      dashboard_top_software licenses l = m.take 5) ∧
    (∃ licenses2 l2, get_top_software licenses2 l2 ≠
      (dashboard_top_software licenses2 l2).take 3) := by
  obtain ⟨h1, h2, h3⟩ := py_sorted_rev_spec (usage_percentage licenses) l
  obtain ⟨g1, g2, g3⟩ := py_sorted_rev_spec (fun s => used_licenses licenses s) l
  exact ⟨⟨_, h1, h2, fun c hc hs => h3 c hc hs, rfl⟩,
    ⟨_, g1, g2, fun c hc hs => g3 c hc hs, rfl⟩,
    ⟨_, _, rankings_differ⟩⟩

/-- C6 witness: the ranking characterisation instantiated at the empty
collection. -/
theorem C6_witness :
    (∃ r : List Software,
      r.Perm [] ∧
      r.Pairwise (fun a b => usage_percentage [] b ≤ usage_percentage [] a) ∧
      (∀ c : List Software,
        c.Pairwise (fun a b => usage_percentage [] b ≤ usage_percentage [] a) →
        c.Sublist [] → c.Sublist r) ∧
      get_top_software [] [] = r.take 3) ∧
    (∃ m : List Software,
      m.Perm [] ∧
      m.Pairwise (fun a b => used_licenses [] b ≤ used_licenses [] a) ∧
      (∀ c : List Software,
        c.Pairwise (fun a b => used_licenses [] b ≤ used_licenses [] a) →
        c.Sublist [] → c.Sublist m) ∧
      dashboard_top_software [] [] = m.take 5) ∧
    (∃ licenses2 l2, get_top_software licenses2 l2 ≠
      (dashboard_top_software licenses2 l2).take 3) :=
  C6_two_rankings [] []

/-- C7 counterexample: on the empty collection the `all` view takes the
early `if not all_software` return and renders the empty paginated shape,
not the three-list shape. -/
theorem C7_counterexample :
    software_inventory [] 0 .all 1 [] = InvResult.paged [] 1 0 ∧
    software_inventory [] 0 .all 1 [] ≠
      InvResult.allView (inventory_all_spec [] 0 []).1 (inventory_all_spec [] 0 []).2.1
        (inventory_all_spec [] 0 []).2.2 := by
  constructor
  · rfl
  · intro h
    rw [show software_inventory [] 0 .all 1 [] = InvResult.paged [] 1 0 from rfl] at h
    exact InvResult.noConfusion h

/-- C7 (amended): on every non-empty collection the `all` view renders the
three independently filtered, sorted and truncated-to-8 lists of the
specification, for every page number (the page parameter is ignored). -/
theorem C7_all_view (licenses : List License) (today page : ℤ) (l : List Software)
    (h : l ≠ []) :
    software_inventory licenses today .all page l =
      InvResult.allView (inventory_all_spec licenses today l).1
        (inventory_all_spec licenses today l).2.1
        (inventory_all_spec licenses today l).2.2 := by
  have he : l.isEmpty = false := by
    cases l with
    | nil => exact absurd rfl h
    | cons a t => rfl
  unfold software_inventory
  rw [he]
  rfl

/-- C7 witness: the `all` view of a one-item inventory, requested with
page 7, is the three-list shape. -/
theorem C7_witness :
    software_inventory [] 0 .all 7 [⟨1, "A", "V", "", "t", 1, 0, 5⟩] =
      InvResult.allView (inventory_all_spec [] 0 [⟨1, "A", "V", "", "t", 1, 0, 5⟩]).1
        (inventory_all_spec [] 0 [⟨1, "A", "V", "", "t", 1, 0, 5⟩]).2.1
        (inventory_all_spec [] 0 [⟨1, "A", "V", "", "t", 1, 0, 5⟩]).2.2 :=
  C7_all_view [] 0 7 [⟨1, "A", "V", "", "t", 1, 0, 5⟩] (List.cons_ne_nil _ _)

/-- C8: for the three single-category modes and every page ≥ 1, the
returned page is the slice `[start, start+12)` of the sorted filtered
list, and an out-of-range start yields the empty page. -/
theorem C8_pagination (licenses : List License) (today : ℤ) (ft : FilterType)
    (page : ℤ) (l : List Software) (hft : ft ≠ FilterType.all) (hp : 1 ≤ page) :
    returned_list (software_inventory licenses today ft page l) =
      ((filtered_software licenses today ft l).drop (((page - 1) * 12).toNat)).take 12 ∧
    ((filtered_software licenses today ft l).length ≤ ((page - 1) * 12).toNat →
      returned_list (software_inventory licenses today ft page l) = []) := by
  have key : returned_list (software_inventory licenses today ft page l) =
      ((filtered_software licenses today ft l).drop (((page - 1) * 12).toNat)).take 12 := by
    unfold software_inventory
    cases hl : l.isEmpty with
    | true =>
      have : l = [] := by cases l with
        | nil => rfl
        | cons a t => simp at hl
      subst this
      cases ft with
      | all => exact absurd rfl hft
      | active =>
        simp [returned_list, filtered_software, active_filtered, py_sorted_rev,
          List.mergeSort_nil]
      | expiring =>
        simp [returned_list, filtered_software, expiring_filtered, py_sorted,
          List.mergeSort_nil]
      | expired =>
        simp [returned_list, filtered_software, expired_filtered, py_sorted_rev,
          List.mergeSort_nil]
    | false =>
      cases ft with
      | all => exact absurd rfl hft
      | active => simpa [filtered_software] using returned_paginate_eq hp
      | expiring => simpa [filtered_software] using returned_paginate_eq hp
      | expired => simpa [filtered_software] using returned_paginate_eq hp
  refine ⟨key, fun h => ?_⟩
  rw [key, List.drop_eq_nil_of_le h, List.take_nil]

/-- C8 witness: page 2 of a one-item `expiring` inventory is the (empty)
slice starting at offset 12. -/
theorem C8_witness :
    returned_list (software_inventory [] 0 FilterType.expiring 2
        [⟨10, "E", "V", "", "t", 1, 0, 10⟩]) =
      ((filtered_software [] 0 FilterType.expiring [⟨10, "E", "V", "", "t", 1, 0, 10⟩]).drop
        (((2 - 1) * 12 : ℤ).toNat)).take 12 ∧
    ((filtered_software [] 0 FilterType.expiring [⟨10, "E", "V", "", "t", 1, 0, 10⟩]).length ≤
        ((2 - 1) * 12 : ℤ).toNat →
      returned_list (software_inventory [] 0 FilterType.expiring 2
        [⟨10, "E", "V", "", "t", 1, 0, 10⟩]) = []) :=
  C8_pagination [] 0 FilterType.expiring 2 [⟨10, "E", "V", "", "t", 1, 0, 10⟩]
    (by decide) (by decide)

/-- C9: deleting software with n ≥ 1 active licenses is rejected with 400
and the message "Cannot delete software with n active licenses" and the
software table unchanged; with 0 active licenses the row is deleted. -/
theorem C9_delete_software_guard (current_user : UserRec) (softwares : List Software)
    (licenses : List License) (software_id : Nat) (s : Software)
    (hadm : current_user.role = "admin")
    (hfind : softwares.find? (fun x => x.id == software_id) = some s) :
    (1 ≤ (licenses.filter
        (fun l => l.software_id == software_id && l.status == "active")).length →
      delete_software current_user softwares licenses software_id =
        ⟨400, "Cannot delete software with " ++
          toString (licenses.filter
            (fun l => l.software_id == software_id && l.status == "active")).length ++
          " active licenses", softwares⟩) ∧
    ((licenses.filter
        (fun l => l.software_id == software_id && l.status == "active")).length = 0 →
      delete_software current_user softwares licenses software_id =
        ⟨200, "Software deleted successfully",
          softwares.filter (fun x => x.id != software_id)⟩) := by
  unfold delete_software
  rw [if_neg (by simp [hadm]), hfind]
  dsimp only
  refine ⟨fun h => ?_, fun h => ?_⟩ <;> split_ifs with hc <;> first | rfl | omega

/-- C9 witness: one active license blocks the deletion with exactly the
message "Cannot delete software with 1 active licenses". -/
theorem C9_witness :
    delete_software ⟨1, "a", "a", "h", "admin"⟩ [⟨5, "S", "V", "", "t", 3, 0, 0⟩]
        [⟨7, 5, some 2, "active"⟩] 5 =
      ⟨400, "Cannot delete software with 1 active licenses",
        [⟨5, "S", "V", "", "t", 3, 0, 0⟩]⟩ :=
  (C9_delete_software_guard ⟨1, "a", "a", "h", "admin"⟩
      [⟨5, "S", "V", "", "t", 3, 0, 0⟩] [⟨7, 5, some 2, "active"⟩] 5
      ⟨5, "S", "V", "", "t", 3, 0, 0⟩ rfl (by decide)).1 (by decide)

/-- C10 counterexample: an email equal to a stored one only up to case
passes the raw-string duplicate check, then case-folds into the stored
value and is rejected by the UNIQUE constraint as 500, not the claimed
400 — though still no user is created. -/
theorem C10_counterexample :
    add_user id ⟨1, "bob", "a@b.c", "h", "admin"⟩ [⟨1, "bob", "a@b.c", "h", "admin"⟩]
        ⟨some "carol", some "A@b.c", some "pw", some "user"⟩ =
      ⟨500, "Internal server error", [⟨1, "bob", "a@b.c", "h", "admin"⟩]⟩ ∧
    py_lower (py_strip "A@b.c") = "a@b.c" := by
  constructor
  · decide
  · decide

/-- C10 (amended): a duplicate email on `POST /api/users` never creates a
user: an exact (already case-folded) duplicate is rejected with 400, and
a case-variant duplicate slips past the raw check and is rejected at
commit with 500; the user table is unchanged either way. -/
theorem C10_duplicate_email (hash : String → String) (current_user : UserRec)
    (users : List UserRec) (un em pw r : String)
    (hadm : current_user.role = "admin")
    (hun : users.find? (fun u => u.username == un) = none) :
    ((users.find? (fun u => u.email == em)).isSome →
      add_user hash current_user users ⟨some un, some em, some pw, some r⟩ =
        ⟨400, "Email already exists", users⟩) ∧
    (users.find? (fun u => u.email == em) = none →
      users.any (fun u => u.username == py_strip un ||
        u.email == py_lower (py_strip em)) = true →
      add_user hash current_user users ⟨some un, some em, some pw, some r⟩ =
        ⟨500, "Internal server error", users⟩) := by
  unfold add_user
  rw [if_neg (by simp [hadm])]
  dsimp only
  constructor
  · intro h
    rw [if_neg (by simp [hun]), if_pos h]
  · intro h hany
    rw [if_neg (by simp [hun]), if_neg (by simp [h])]
    rw [if_pos hany]

/-- C10 witness: the exact duplicate email is rejected with 400 and no
user is created. -/
theorem C10_witness :
    add_user id ⟨1, "bob", "a@b.c", "h", "admin"⟩ [⟨1, "bob", "a@b.c", "h", "admin"⟩]
        ⟨some "carol", some "a@b.c", some "pw", some "user"⟩ =
      ⟨400, "Email already exists", [⟨1, "bob", "a@b.c", "h", "admin"⟩]⟩ :=
  (C10_duplicate_email id ⟨1, "bob", "a@b.c", "h", "admin"⟩
      [⟨1, "bob", "a@b.c", "h", "admin"⟩] "carol" "a@b.c" "pw" "user" rfl (by decide)).1
    (by decide)

end SAMurAI
